import Mathlib

/-!
Shallow embedding of the `SkillDialog` component
(`libraries/botbuilder-dialogs/botbuilder/dialogs/skills/skill_dialog.py`).

The Python class is translated into pure Lean functions.  Stateful or
effectful steps (saving conversation state, posting an activity to the
skill transport client, sending an activity to the user, exchanging a
token) are recorded as an explicit list of `Event`s, and the external
collaborators (the skill transport client, the token exchange provider,
the conversation-id factory and the adapter capability) are supplied as
an `Env` record of oracles.  Fallible Python code (raised exceptions)
is rendered with `Except PyError`.
-/

namespace SkillDialog

/-- Delivery mode constant `DeliveryModes.expect_replies`. -/
def expect_replies : String := "expectReplies"

/-- Activity type constant `ActivityTypes.end_of_conversation`. -/
def end_of_conversation : String := "endOfConversation"

/-- Activity type constant `ActivityTypes.invoke`. -/
def invoke_type : String := "invoke"

/-- Activity type constant `ActivityTypes.message`, the default type of a reply. -/
def message_type : String := "message"

/-- Constant `SignInConstants.token_exchange_operation_name`. -/
def token_exchange_operation_name : String := "signin/tokenExchange"

/-- Constant `ContentTypes.oauth_card`. -/
def oauth_card_content_type : String := "application/vnd.microsoft.card.oauth"

/-- Embedding of `TokenExchangeResource` (fields used by the source). -/
structure TokenExchangeResource where
  id : Option String
  uri : Option String
deriving DecidableEq, Repr

/-- Embedding of an OAuth card's content (fields used by the source). -/
structure OAuthCard where
  connection_name : Option String
  token_exchange_resource : Option TokenExchangeResource
deriving DecidableEq, Repr

/-- Embedding of an activity attachment. -/
structure Attachment where
  content_type : String
  content : Option OAuthCard
deriving DecidableEq, Repr

/-- Value carried by an activity: either nothing, an opaque payload, or the
`TokenExchangeInvokeRequest` object built by the source. -/
inductive ActivityValue
  | novalue
  | payload (s : String)
  | token_exchange_invoke_request (id : Option String) (token : String)
      (connection_name : Option String)
deriving DecidableEq, Repr

/-- Embedding of `Activity` restricted to the fields the source reads or
writes.  `conversation_id` stands for `activity.conversation.id`. -/
structure Activity where
  type : String
  name : Option String := none
  value : ActivityValue := ActivityValue.novalue
  delivery_mode : Option String := none
  attachments : Option (List Attachment) := none
  conversation_id : Option String := none
  channel_data : Option String := none
  additional_properties : Option String := none
deriving DecidableEq, Repr

/-- Embedding of the token response returned by `exchange_token`. -/
structure TokenResponse where
  token : Option String
deriving DecidableEq, Repr

/-- Outcome of a call to the token exchange provider: a raised exception or
a returned (possibly absent) token response. -/
inductive ExchangeOutcome
  | throws
  | result (r : Option TokenResponse)
deriving DecidableEq, Repr

/-- Outcome of a call to the skill transport client `post_activity`:
a raised exception or a response with a status and an optional body of
activities (the `ExpectedReplies` payload). -/
inductive PostOutcome
  | throws
  | response (status : Nat) (body : Option (List Activity))
deriving DecidableEq, Repr

/-- Embedding of the `BotFrameworkSkill` descriptor fields the source uses. -/
structure SkillInfo where
  id : String
  app_id : String
  skill_endpoint : String
deriving DecidableEq, Repr

/-- Embedding of `SkillDialogOptions` fields the source uses. -/
structure DialogOptions where
  bot_id : String
  skill : SkillInfo
  skill_host_endpoint : String
deriving DecidableEq, Repr

/-- Oracles for the external collaborators of a single turn: the dialog
options, whether the adapter satisfies `ExtendedUserTokenProvider`, the
conversation id produced by the conversation-id factory, the transport
client response for a posted (conversation id, activity) pair, and the
token exchange outcome for a (connection name, uri) pair. -/
structure Env where
  opts : DialogOptions
  is_extended_user_token_provider : Bool
  skill_conversation_id : String
  post : String → Activity → PostOutcome
  exchange : String → String → ExchangeOutcome

/-- Observable steps taken by the component during one operation, in
program order. -/
inductive Event
  | trace_activity (label : String)
  | create_conversation_id (conv_id : String)
  | save_changes
  | post_activity (conv_id : String) (activity : Activity)
  | exchange_token (connection_name : String) (uri : String)
  | send_activity_to_user (a : Activity)
  | base_teardown
deriving DecidableEq, Repr

/-- Python exceptions that the embedded code can raise to its caller. -/
inductive PyError
  | type_error (msg : String)
  | stop_iteration
  | attribute_error
  | key_error
  | transport_throws
  | invoke_error (msg : String)
deriving DecidableEq, Repr

/-- Truthiness of an optional Python string: `None` and the empty string
are falsy. -/
def py_truthy_str : Option String → Bool
  | none => false
  | some s => s != ""

/-- Embedding of line 313 of the source, `response.status / 100 == 2`.
Python 3 `/` is true division, so the comparison is exact division over
the rationals (float division of small naturals by 100 compares equal to
2 exactly when the rational quotient is 2). -/
def py_status_div_check (status : Nat) : Bool :=
  decide ((status : ℚ) / 100 = 2)

/-- Modelled from the spec: `Activity.create_reply` (schema library, not in
the analysed source file) synthesizes a reply activity addressed back to the
sender of `a`, so it reuses the conversation of `a`; content fields start
empty and are overwritten by the caller. -/
def create_reply (a : Activity) : Activity :=
  { type := message_type, conversation_id := a.conversation_id }

/-- Embedding of `SkillDialog._send_token_exchange_invoke_to_skill`.
Builds the token-exchange invoke activity, posts it with
`incoming_activity.conversation.id`, and returns
`response.status / 100 == 2`.  Accessing `.conversation.id` of an absent
conversation raises `AttributeError`; a raised transport call propagates. -/
def send_token_exchange_invoke_to_skill (env : Env) (incoming_activity : Activity)
    (request_id : Option String) (connection_name : Option String) (token : String) :
    List Event × Except PyError Bool :=
  let activity : Activity :=
    { create_reply incoming_activity with
        type := invoke_type
        name := some token_exchange_operation_name
        value := ActivityValue.token_exchange_invoke_request request_id token connection_name }
  match incoming_activity.conversation_id with
  | none => ([], Except.error PyError.attribute_error)
  | some cid =>
      match env.post cid activity with
      | PostOutcome.throws =>
          ([Event.post_activity cid activity], Except.error PyError.transport_throws)
      | PostOutcome.response status _ =>
          ([Event.post_activity cid activity], Except.ok (py_status_div_check status))

/-- Embedding of `SkillDialog._intercept_oauth_cards`.  Mirrors the source
control flow: the guard on the connection name and the adapter capability;
`next(...)` over the attachments with NO default (`None` attachments raise
`TypeError`, an exhausted generator raises `StopIteration`); the guards on
the card content and the token exchange resource uri; the `try` block that
swallows any exception raised by the exchange or by the follow-up invoke. -/
def intercept_oauth_cards (env : Env) (activity : Activity)
    (connection_name : Option String) : List Event × Except PyError Bool :=
  if !py_truthy_str connection_name || !env.is_extended_user_token_provider then
    ([], Except.ok false)
  else
    match activity.attachments with
    | none => ([], Except.error (PyError.type_error "NoneType object is not iterable"))
    | some atts =>
        match atts.find? (fun att => att.content_type == oauth_card_content_type) with
        | none => ([], Except.error PyError.stop_iteration)
        | some oauth_card_attachment =>
            match oauth_card_attachment.content with
            | none => ([], Except.ok false)
            | some oauth_card =>
                match oauth_card.token_exchange_resource with
                | none => ([], Except.ok false)
                | some resource =>
                    match resource.uri with
                    | none => ([], Except.ok false)
                    | some uri =>
                      if uri == "" then ([], Except.ok false)
                      else
                        let cn := connection_name.getD ""
                        let ev0 := Event.exchange_token cn uri
                        match env.exchange cn uri with
                        | ExchangeOutcome.throws => ([ev0], Except.ok false)
                        | ExchangeOutcome.result none => ([ev0], Except.ok false)
                        | ExchangeOutcome.result (some tr) =>
                            if !py_truthy_str tr.token then ([ev0], Except.ok false)
                            else
                              let pr := send_token_exchange_invoke_to_skill env activity
                                resource.id oauth_card.connection_name (tr.token.getD "")
                              match pr.2 with
                              | Except.error _ => (ev0 :: pr.1, Except.ok false)
                              | Except.ok handled => (ev0 :: pr.1, Except.ok handled)

/-- Division check characterization: true division of a natural status by
100 equals 2 exactly for status 200. -/
theorem py_status_div_check_iff (status : Nat) :
    py_status_div_check status = true ↔ status = 200 := by
  unfold py_status_div_check
  rw [decide_eq_true_eq]
  constructor
  · intro h
    have h100 : (100 : ℚ) ≠ 0 := by norm_num
    rw [div_eq_iff h100] at h
    have h2 : (status : ℚ) = 200 := by linarith
    exact_mod_cast h2
  · intro h
    subst h
    norm_num

/-- Boolean form of the division check characterization. -/
theorem py_status_div_check_eq (status : Nat) :
    py_status_div_check status = (status == 200) := by
  by_cases hs : status = 200
  · subst hs
    simp [py_status_div_check_iff]
  · have h1 : ¬ py_status_div_check status = true := by
      intro h
      exact hs ((py_status_div_check_iff status).1 h)
    simp only [Bool.not_eq_true] at h1
    simp [h1, hs]

/-- Base environment shared by concrete evaluations: the adapter supports
extended token operations, the transport answers 200 with no body, and the
exchange throws. -/
def base_env : Env :=
  { opts :=
      { bot_id := "bot"
        skill := { id := "skillId", app_id := "appId", skill_endpoint := "https://skill" }
        skill_host_endpoint := "https://host" }
    is_extended_user_token_provider := true
    skill_conversation_id := "skillConv"
    post := fun _ _ => PostOutcome.response 200 none
    exchange := fun _ _ => ExchangeOutcome.throws }

/-- Environment in which the token exchange succeeds with token "tok" and
the follow-up invoke call answers status 201. -/
def c1_env : Env :=
  { base_env with
      post := fun _ _ => PostOutcome.response 201 none
      exchange := fun _ _ => ExchangeOutcome.result (some { token := some "tok" }) }

/-- Activity carrying one OAuth card with a token exchange resource. -/
def c1_activity : Activity :=
  { type := message_type
    attachments := some
      [{ content_type := oauth_card_content_type
         content := some
           { connection_name := some "cardConn"
             token_exchange_resource := some { id := some "rid", uri := some "u1" } } }]
    conversation_id := some "conv1" }

/-- C1: the claim states that after a successful token exchange the
interception returns true for every follow-up status in the 2xx class.
Evaluating the code at follow-up status 201 (with a successful exchange
yielding the non-empty token "tok") returns false, because the source
compares `status / 100` to 2 with Python true division, which equals 2
only at status exactly 200. -/
theorem c1_follow_up_201_not_handled :
    (intercept_oauth_cards c1_env c1_activity (some "conn")).2 = Except.ok false := by
  simp [intercept_oauth_cards, send_token_exchange_invoke_to_skill, c1_env, base_env,
    c1_activity, py_truthy_str, py_status_div_check_eq, List.find?]

/-- Activity with an attachments list that contains no OAuth card. -/
def c2_activity : Activity :=
  { type := message_type
    attachments := some [{ content_type := "text/plain", content := none }]
    conversation_id := some "conv1" }

/-- C2: the claim states that interception never propagates an error and
returns false when no attachment is an OAuth card.  Evaluating the code on
an activity whose attachments hold no OAuth card (with a connection name
supplied and a capable adapter) raises StopIteration: the source calls
`next` over the filtered attachments with no default. -/
theorem c2_no_card_raises_stop_iteration :
    intercept_oauth_cards base_env c2_activity (some "conn") =
      ([], Except.error PyError.stop_iteration) := by
  simp [intercept_oauth_cards, base_env, c2_activity, py_truthy_str, List.find?,
    oauth_card_content_type]

/-- Textual rendering of a response body, standing for the Python
interpolation of `response.body` into the error message. -/
def body_text (body : Option (List Activity)) : String :=
  reprStr body

/-- Message of the exception raised by `_send_to_skill` on a non-2xx
status, built exactly from the skill id, the skill endpoint, the status
and the response body as in the source f-string. -/
def skill_error_message (skill_id : String) (skill_endpoint : String)
    (status : Nat) (body : Option (List Activity)) : String :=
  "Error invoking the skill id: \"" ++ skill_id ++ "\" at \"" ++ skill_endpoint ++
    "\" (status is " ++ toString status ++ "). \r\n " ++ body_text body

/-- Embedding of the reply-processing loop of `_send_to_skill` (lines
227-238): an end-of-conversation reply overwrites the captured activity,
an intercepted reply is dropped, any other reply is sent to the user; an
exception raised by the interception aborts the loop. -/
def process_replies (env : Env) (connection_name : Option String) :
    List Activity → Option Activity → List Event × Except PyError (Option Activity)
  | [], eoc => ([], Except.ok eoc)
  | a :: rest, eoc =>
    if a.type == end_of_conversation then
      process_replies env connection_name rest (some a)
    else
      let ir := intercept_oauth_cards env a connection_name
      match ir.2 with
      | Except.error e => (ir.1, Except.error e)
      | Except.ok true =>
          let pr := process_replies env connection_name rest eoc
          (ir.1 ++ pr.1, pr.2)
      | Except.ok false =>
          let pr := process_replies env connection_name rest eoc
          (ir.1 ++ Event.send_activity_to_user a :: pr.1, pr.2)

/-- Embedding of `_send_to_skill` from the transport call on: inspect the
response status, raise on a status outside [200, 299], and when the
outbound delivery mode is expectReplies and a body is present process the
deserialized replies. -/
def send_to_skill_core (env : Env) (connection_name : Option String)
    (activity : Activity) : List Event × Except PyError (Option Activity) :=
  let tail : List Event × Except PyError (Option Activity) :=
    match env.post env.skill_conversation_id activity with
    | PostOutcome.throws => ([], Except.error PyError.transport_throws)
    | PostOutcome.response status body =>
        if 200 ≤ status ∧ status ≤ 299 then
          match body with
          | some acts =>
              if activity.delivery_mode == some expect_replies then
                process_replies env connection_name acts none
              else ([], Except.ok none)
          | none => ([], Except.ok none)
        else
          ([],
           Except.error (PyError.invoke_error
             (skill_error_message env.opts.skill.id env.opts.skill.skill_endpoint status body)))
  (Event.post_activity env.skill_conversation_id activity :: tail.1, tail.2)

/-- Embedding of `SkillDialog._send_to_skill`: obtain the skill
conversation id from the factory, save the conversation state, post the
activity, and handle the response. -/
def send_to_skill (env : Env) (connection_name : Option String)
    (activity : Activity) : List Event × Except PyError (Option Activity) :=
  let core := send_to_skill_core env connection_name activity
  (Event.create_conversation_id env.skill_conversation_id ::
    Event.save_changes :: core.1, core.2)

/-- Activities surfaced to the end user in an event trace, in order. -/
def sent_to_user (evs : List Event) : List Activity :=
  evs.filterMap fun e =>
    match e with
    | Event.send_activity_to_user a => some a
    | _ => none

/-- Activities posted to the skill transport client in an event trace. -/
def posts (evs : List Event) : List Activity :=
  evs.filterMap fun e =>
    match e with
    | Event.post_activity _ a => some a
    | _ => none

/-- Predicate recognizing a transport dispatch event. -/
def is_post_event : Event → Bool
  | Event.post_activity _ _ => true
  | _ => false

/-- Holds of a reply whose interception returned false, so that the reply
is surfaced to the user. -/
def not_intercepted (env : Env) (connection_name : Option String)
    (a : Activity) : Bool :=
  match (intercept_oauth_cards env a connection_name).2 with
  | Except.ok false => true
  | _ => false

/-- Last end-of-conversation activity of a batch, defaulting to the
accumulator when the batch has none. -/
def last_eoc (batch : List Activity) (acc : Option Activity) : Option Activity :=
  match (batch.filter fun a => a.type == end_of_conversation).getLast? with
  | some a => some a
  | none => acc

/-- Interception never surfaces an activity to the user itself; its trace
holds only exchange and transport events. -/
theorem sent_to_user_intercept (env : Env) (a : Activity) (cn : Option String) :
    sent_to_user (intercept_oauth_cards env a cn).1 = [] := by
  unfold intercept_oauth_cards send_token_exchange_invoke_to_skill
  repeat' split
  all_goals simp [sent_to_user]
  all_goals repeat' split
  all_goals simp

/-- Trace helper: surfacing distributes over appended traces. -/
theorem sent_to_user_append (l1 l2 : List Event) :
    sent_to_user (l1 ++ l2) = sent_to_user l1 ++ sent_to_user l2 := by
  simp [sent_to_user, List.filterMap_append]

/-- Interception can return a boolean or raise TypeError or StopIteration,
but it never raises the invoke-status error of the transport layer. -/
theorem intercept_no_invoke_error (env : Env) (a : Activity) (cn : Option String)
    (msg : String) :
    (intercept_oauth_cards env a cn).2 ≠ Except.error (PyError.invoke_error msg) := by
  unfold intercept_oauth_cards
  repeat' split
  all_goals simp
  all_goals repeat' split
  all_goals simp

/-- Helper: the optional last element of a cons cell. -/
theorem getLast?_cons_eq {α : Type _} (a : α) (l : List α) :
    (a :: l).getLast? =
      match l.getLast? with
      | some b => some b
      | none => some a := by
  induction l generalizing a with
  | nil => rfl
  | cons b t ih =>
      rw [List.getLast?_cons_cons, ih b]
      cases h : t.getLast? with
      | none => simp
      | some c => simp

/-- Helper: capturing over a batch headed by an end-of-conversation reply
moves that reply into the accumulator. -/
theorem last_eoc_cons_eoc (a : Activity) (rest : List Activity) (acc : Option Activity)
    (ht : (a.type == end_of_conversation) = true) :
    last_eoc (a :: rest) acc = last_eoc rest (some a) := by
  unfold last_eoc
  have hf : (a :: rest).filter (fun x => x.type == end_of_conversation) =
      a :: rest.filter (fun x => x.type == end_of_conversation) := by
    simp [List.filter_cons, ht]
  rw [hf, getLast?_cons_eq]
  cases h : (rest.filter fun x => x.type == end_of_conversation).getLast? with
  | none => simp
  | some b => simp

/-- Helper: a non-end-of-conversation head does not affect the capture. -/
theorem last_eoc_cons_ne (a : Activity) (rest : List Activity) (acc : Option Activity)
    (ht : (a.type == end_of_conversation) = false) :
    last_eoc (a :: rest) acc = last_eoc rest acc := by
  unfold last_eoc
  have hf : (a :: rest).filter (fun x => x.type == end_of_conversation) =
      rest.filter (fun x => x.type == end_of_conversation) := by
    simp [List.filter_cons, ht]
  rw [hf]

/-- Helper: with no accumulated activity the capture is the last
end-of-conversation reply of the batch. -/
theorem last_eoc_none (batch : List Activity) :
    last_eoc batch none =
      (batch.filter fun a => a.type == end_of_conversation).getLast? := by
  unfold last_eoc
  cases h : (batch.filter fun a => a.type == end_of_conversation).getLast? with
  | none => simp
  | some b => simp

/-- Reply processing, when it completes without an exception, surfaces
exactly the non-end-of-conversation, non-intercepted replies in batch
order, and captures the last end-of-conversation reply (or keeps the
accumulator). -/
theorem process_replies_ok (env : Env) (cn : Option String) :
    ∀ (batch : List Activity) (acc : Option Activity) (evs : List Event)
      (eoc : Option Activity),
      process_replies env cn batch acc = (evs, Except.ok eoc) →
      sent_to_user evs =
        batch.filter (fun a => (a.type != end_of_conversation) && not_intercepted env cn a) ∧
      eoc = last_eoc batch acc := by
  intro batch
  induction batch with
  | nil =>
      intro acc evs eoc h
      simp only [process_replies, Prod.mk.injEq] at h
      obtain ⟨h1, h2⟩ := h
      subst h1
      cases h2
      simp [sent_to_user, last_eoc]
  | cons a rest ih =>
      intro acc evs eoc h
      rw [process_replies] at h
      by_cases ht : (a.type == end_of_conversation) = true
      · rw [if_pos ht] at h
        obtain ⟨hs, he⟩ := ih (some a) evs eoc h
        refine ⟨?_, ?_⟩
        · rw [hs]
          have hpred : ((a.type != end_of_conversation) && not_intercepted env cn a)
              = false := by
            simp [bne, ht]
          simp [List.filter_cons, hpred]
        · rw [he, last_eoc_cons_eoc a rest acc ht]
      · rw [if_neg ht] at h
        rw [Bool.not_eq_true] at ht
        have hni : (a.type != end_of_conversation) = true := by simp [bne, ht]
        dsimp only at h
        rcases hcase : (intercept_oauth_cards env a cn).2 with e | b
        · rw [hcase] at h
          simp at h
        · rw [hcase] at h
          cases b
          · dsimp only at h
            rw [Prod.mk.injEq] at h
            obtain ⟨h1, h2⟩ := h
            have hrec : process_replies env cn rest acc =
                ((process_replies env cn rest acc).1, Except.ok eoc) := by
              rw [← h2]
            obtain ⟨hs, he⟩ := ih acc (process_replies env cn rest acc).1 eoc hrec
            refine ⟨?_, ?_⟩
            · rw [← h1, sent_to_user_append, sent_to_user_intercept]
              have hsend : sent_to_user (Event.send_activity_to_user a ::
                  (process_replies env cn rest acc).1) =
                  a :: sent_to_user (process_replies env cn rest acc).1 := by
                simp [sent_to_user]
              rw [List.nil_append, hsend, hs]
              have hpred : ((a.type != end_of_conversation) && not_intercepted env cn a)
                  = true := by
                simp [hni, not_intercepted, hcase]
              simp [List.filter_cons, hpred]
            · rw [he, last_eoc_cons_ne a rest acc (by simp [bne, ht])]
          · dsimp only at h
            rw [Prod.mk.injEq] at h
            obtain ⟨h1, h2⟩ := h
            have hrec : process_replies env cn rest acc =
                ((process_replies env cn rest acc).1, Except.ok eoc) := by
              rw [← h2]
            obtain ⟨hs, he⟩ := ih acc (process_replies env cn rest acc).1 eoc hrec
            refine ⟨?_, ?_⟩
            · rw [← h1, sent_to_user_append, sent_to_user_intercept]
              rw [List.nil_append, hs]
              have hpred : ((a.type != end_of_conversation) && not_intercepted env cn a)
                  = false := by
                simp [not_intercepted, hcase]
              simp [List.filter_cons, hpred]
            · rw [he, last_eoc_cons_ne a rest acc (by simp [bne, ht])]

/-- C3: in every expectReplies batch processed to completion by
`send_to_skill`, end-of-conversation replies are never surfaced to the
user, the captured end-of-conversation activity is the last one of the
batch in batch order, and the surfaced replies are exactly the
non-end-of-conversation, non-intercepted replies in the batch's original
insertion order. -/
theorem c3_expect_replies_ordering (env : Env) (cn : Option String) (activity : Activity)
    (status : Nat) (batch : List Activity) (evs : List Event) (eoc : Option Activity)
    (hpost : env.post env.skill_conversation_id activity =
      PostOutcome.response status (some batch))
    (hstatus : 200 ≤ status ∧ status ≤ 299)
    (hmode : activity.delivery_mode = some expect_replies)
    (h : send_to_skill env cn activity = (evs, Except.ok eoc)) :
    (∀ a ∈ sent_to_user evs, a.type ≠ end_of_conversation) ∧
    eoc = (batch.filter fun a => a.type == end_of_conversation).getLast? ∧
    sent_to_user evs =
      batch.filter fun a =>
        (a.type != end_of_conversation) && not_intercepted env cn a := by
  unfold send_to_skill send_to_skill_core at h
  rw [hpost] at h
  try dsimp only at h
  rw [if_pos hstatus] at h
  try dsimp only at h
  have hmode' : (activity.delivery_mode == some expect_replies) = true := by
    rw [hmode]
    exact beq_self_eq_true _
  rw [if_pos hmode'] at h
  try dsimp only at h
  rw [Prod.mk.injEq] at h
  obtain ⟨h1, h2⟩ := h
  have hrec : process_replies env cn batch none =
      ((process_replies env cn batch none).1, Except.ok eoc) := by
    rw [← h2]
  obtain ⟨hs, he⟩ := process_replies_ok env cn batch none
    (process_replies env cn batch none).1 eoc hrec
  have hsent : sent_to_user evs = sent_to_user (process_replies env cn batch none).1 := by
    rw [← h1]
    simp [sent_to_user]
  refine ⟨?_, ?_, ?_⟩
  · intro a ha
    rw [hsent, hs, List.mem_filter] at ha
    obtain ⟨-, hp⟩ := ha
    rw [Bool.and_eq_true] at hp
    intro hcontra
    have hb := hp.1
    rw [hcontra] at hb
    simp at hb
  · rw [he, last_eoc_none]
  · rw [hsent, hs]

/-- Message reply used in concrete batch evaluations. -/
def c3_msg : Activity := { type := message_type }

/-- End-of-conversation reply used in concrete batch evaluations. -/
def c3_eoc_act : Activity :=
  { type := end_of_conversation, value := ActivityValue.payload "done" }

/-- Outbound expectReplies activity used in concrete batch evaluations. -/
def c3_out : Activity := { type := message_type, delivery_mode := some expect_replies }

/-- Environment whose transport answers a two-reply expectReplies batch. -/
def c3_env : Env :=
  { base_env with post := fun _ _ => PostOutcome.response 200 (some [c3_msg, c3_eoc_act]) }

/-- Witness for C3 at a concrete two-reply batch. -/
theorem c3_witness :
    (some c3_eoc_act : Option Activity) =
      (([c3_msg, c3_eoc_act]).filter fun a => a.type == end_of_conversation).getLast? ∧
    sent_to_user [Event.create_conversation_id "skillConv", Event.save_changes,
        Event.post_activity "skillConv" c3_out, Event.send_activity_to_user c3_msg] =
      ([c3_msg, c3_eoc_act]).filter fun a =>
        (a.type != end_of_conversation) && not_intercepted c3_env none a := by
  have h := c3_expect_replies_ordering c3_env none c3_out 200 [c3_msg, c3_eoc_act]
    [Event.create_conversation_id "skillConv", Event.save_changes,
      Event.post_activity "skillConv" c3_out, Event.send_activity_to_user c3_msg]
    (some c3_eoc_act) rfl (by decide) rfl rfl
  exact ⟨h.2.1, h.2.2⟩

/-- C5: in every execution of `send_to_skill`, the conversation-state save
is an element of the trace and no transport dispatch occurs in the trace
prefix before the save event. -/
theorem c5_state_saved_before_dispatch (env : Env) (cn : Option String)
    (activity : Activity) :
    Event.save_changes ∈ (send_to_skill env cn activity).1 ∧
    ((send_to_skill env cn activity).1.takeWhile
        (fun e => e != Event.save_changes)).filter is_post_event = [] := by
  unfold send_to_skill
  dsimp only
  constructor
  · exact List.mem_cons_of_mem _ (List.mem_cons_self _ _)
  · have h1 : ((Event.create_conversation_id env.skill_conversation_id : Event) !=
        Event.save_changes) = true := by
      simp
    have h2 : ((Event.save_changes : Event) != Event.save_changes) = false := by
      simp
    simp [List.takeWhile, h1, h2, is_post_event]

/-- Reply processing never raises the transport-status invoke error: the
only exceptions escaping the loop come from the interception. -/
theorem process_replies_no_invoke_error (env : Env) (cn : Option String) :
    ∀ (batch : List Activity) (acc : Option Activity) (msg : String),
      (process_replies env cn batch acc).2 ≠ Except.error (PyError.invoke_error msg) := by
  intro batch
  induction batch with
  | nil =>
      intro acc msg h
      simp [process_replies] at h
  | cons a rest ih =>
      intro acc msg h
      rw [process_replies] at h
      by_cases ht : (a.type == end_of_conversation) = true
      · rw [if_pos ht] at h
        exact ih (some a) msg h
      · rw [if_neg ht] at h
        dsimp only at h
        rcases hcase : (intercept_oauth_cards env a cn).2 with e | b
        · rw [hcase] at h
          dsimp only at h
          have he : e = PyError.invoke_error msg := by
            injection h
          rw [he] at hcase
          exact intercept_no_invoke_error env a cn msg hcase
        · rw [hcase] at h
          cases b <;> dsimp only at h
          · exact ih acc msg h
          · exact ih acc msg h

/-- C7: a transport response status inside [200, 299] never yields the
invoke-status error, while a status outside [200, 299] makes
`send_to_skill` raise the error built from the skill id, the skill
endpoint, the status and the response body, after exactly one dispatch
(no local retry). -/
theorem c7_status_check (env : Env) (cn : Option String) (activity : Activity)
    (status : Nat) (body : Option (List Activity))
    (hpost : env.post env.skill_conversation_id activity =
      PostOutcome.response status body) :
    ((200 ≤ status ∧ status ≤ 299) →
      ∀ msg, (send_to_skill env cn activity).2 ≠
        Except.error (PyError.invoke_error msg)) ∧
    (¬(200 ≤ status ∧ status ≤ 299) →
      (send_to_skill env cn activity).2 =
        Except.error (PyError.invoke_error
          (skill_error_message env.opts.skill.id env.opts.skill.skill_endpoint
            status body)) ∧
      posts (send_to_skill env cn activity).1 = [activity]) := by
  unfold send_to_skill send_to_skill_core
  dsimp only
  rw [hpost]
  dsimp only
  constructor
  · intro hin msg
    rw [if_pos hin]
    cases body with
    | none => simp
    | some acts =>
        dsimp only
        by_cases hm : (activity.delivery_mode == some expect_replies) = true
        · rw [if_pos hm]
          try dsimp only
          exact process_replies_no_invoke_error env cn acts none msg
        · rw [if_neg hm]
          simp
  · intro hout
    rw [if_neg hout]
    exact ⟨rfl, rfl⟩

/-- Plain message activity used in concrete transport evaluations. -/
def c7_activity : Activity := { type := message_type }

/-- Environment whose transport answers status 300 with no body. -/
def c7_env : Env :=
  { base_env with post := fun _ _ => PostOutcome.response 300 none }

/-- Witness for C7 at status 300: the call aborts with the formatted error
and a single dispatch. -/
theorem c7_witness :
    (send_to_skill c7_env none c7_activity).2 =
      Except.error (PyError.invoke_error
        (skill_error_message "skillId" "https://skill" 300 none)) ∧
    posts (send_to_skill c7_env none c7_activity).1 = [c7_activity] := by
  exact (c7_status_check c7_env none c7_activity 300 none rfl).2 (by decide)

/-- Frame-local dialog state: the string-keyed dictionary
`dialog_context.active_dialog.state`, restricted to optional-string
values (the two keys this component owns hold optional strings). -/
def FrameState : Type := List (String × Option String)

/-- Key `self._deliver_mode_state_key`. -/
def deliver_mode_state_key : String := "deliverymode"

/-- Key `self._sso_connection_name_key`. -/
def sso_connection_name_key : String := "SkillDialog.SSOConnectionName"

/-- Dictionary write `state[k] = v`. -/
def state_set (s : FrameState) (k : String) (v : Option String) : FrameState :=
  (s.filter fun kv => kv.1 != k) ++ [(k, v)]

/-- Dictionary read `state[k]`, `none` when the key is missing (Python
raises KeyError in that case). -/
def state_get (s : FrameState) (k : String) : Option (Option String) :=
  (s.find? fun kv => kv.1 == k).map fun kv => kv.2

/-- Modelled from the spec: the `options` object handed to begin.  The
conversion `BeginSkillDialogOptions.from_object` (not in the analysed
source file) either fails or yields an options record carrying an
optional activity and an optional connection name. -/
inductive OptionsObj
  | not_begin_options
  | begin_options (activity : Option Activity) (connection_name : Option String)
deriving DecidableEq, Repr

/-- Validated begin arguments: a present activity and the supplied
connection name. -/
structure BeginSkillDialogOptions where
  activity : Activity
  connection_name : Option String
deriving DecidableEq, Repr

/-- Embedding of `SkillDialog._validate_begin_dialog_args`: raises on
falsy options, on an object that is not convertible, and on an absent
activity. -/
def validate_begin_dialog_args :
    Option OptionsObj → Except PyError BeginSkillDialogOptions
  | none => Except.error (PyError.type_error "options cannot be None.")
  | some OptionsObj.not_begin_options =>
      Except.error (PyError.type_error
        "SkillDialog: options object not valid as BeginSkillDialogOptions.")
  | some (OptionsObj.begin_options none _) =>
      Except.error (PyError.type_error
        "SkillDialog: activity object in options as BeginSkillDialogOptions cannot be None.")
  | some (OptionsObj.begin_options (some a) cn) =>
      Except.ok { activity := a, connection_name := cn }

/-- Modelled from the spec: `TurnContext.apply_conversation_reference`
(core library, not in the analysed source file) stamps the clone with the
root conversation's correlation reference in the incoming direction; it
rewrites the routing fields (here the conversation id) and leaves the
content fields (type, value, delivery mode, attachments, channel data)
unchanged. -/
def apply_conversation_reference (context_activity : Activity) (a : Activity) : Activity :=
  { a with conversation_id := context_activity.conversation_id }

/-- Dialog outcome visible to the hosting driver: the turn was consumed,
or the dialog ended returning a value. -/
inductive DialogTurnResult
  | end_of_turn
  | ended (value : ActivityValue)
deriving DecidableEq, Repr

/-- Embedding of `DialogReason` members used by the source. -/
inductive DialogReason
  | begin_called
  | continue_called
  | end_called
  | replace_called
  | cancel_called
  | next_called
deriving DecidableEq, Repr

/-- Trace label of `begin_dialog`. -/
def begin_trace_label : String := "SkillDialog.BeginDialogAsync()"

/-- Trace label of `continue_dialog`. -/
def continue_trace_label : String := "SkillDialog.continue_dialog()"

/-- Trace label of `end_dialog`. -/
def end_trace_label : String := "SkillDialog.end_dialog()"

/-- Label of the extra trace sent when continue receives an inbound
end-of-conversation activity. -/
def continue_eoc_trace_label : String := "Got endOfConversation"

/-- Embedding of `SkillDialog.begin_dialog`: validate the arguments
(raising before any state is written or any activity is sent), clone and
re-reference the activity, persist the delivery mode and the SSO
connection name into the frame state, forward to the skill, and end the
dialog when an end-of-conversation activity was captured. -/
def begin_dialog (env : Env) (context_activity : Activity) (frame : FrameState)
    (options : Option OptionsObj) :
    List Event × FrameState × Except PyError DialogTurnResult :=
  match validate_begin_dialog_args options with
  | Except.error e => ([], frame, Except.error e)
  | Except.ok dialog_args =>
      let skill_activity := apply_conversation_reference context_activity dialog_args.activity
      let frame2 :=
        state_set (state_set frame deliver_mode_state_key dialog_args.activity.delivery_mode)
          sso_connection_name_key dialog_args.connection_name
      let sr := send_to_skill env dialog_args.connection_name skill_activity
      (Event.trace_activity begin_trace_label :: sr.1, frame2,
        match sr.2 with
        | Except.error e => Except.error e
        | Except.ok (some eoc) => Except.ok (DialogTurnResult.ended eoc.value)
        | Except.ok none => Except.ok DialogTurnResult.end_of_turn)

/-- Embedding of `SkillDialog.continue_dialog`: an inbound
end-of-conversation activity ends the dialog with its value at once;
otherwise the inbound activity is cloned, stamped with the stored
delivery mode, and forwarded with the stored connection name (reading a
missing key raises KeyError). -/
def continue_dialog (env : Env) (context_activity : Activity) (frame : FrameState) :
    List Event × FrameState × Except PyError DialogTurnResult :=
  if context_activity.type == end_of_conversation then
    ([Event.trace_activity continue_trace_label,
      Event.trace_activity continue_eoc_trace_label], frame,
      Except.ok (DialogTurnResult.ended context_activity.value))
  else
    match state_get frame deliver_mode_state_key with
    | none => ([Event.trace_activity continue_trace_label], frame,
        Except.error PyError.key_error)
    | some dm =>
        match state_get frame sso_connection_name_key with
        | none => ([Event.trace_activity continue_trace_label], frame,
            Except.error PyError.key_error)
        | some cn =>
            let skill_activity := { context_activity with delivery_mode := dm }
            let sr := send_to_skill env cn skill_activity
            (Event.trace_activity continue_trace_label :: sr.1, frame,
              match sr.2 with
              | Except.error e => Except.error e
              | Except.ok (some eoc) => Except.ok (DialogTurnResult.ended eoc.value)
              | Except.ok none => Except.ok DialogTurnResult.end_of_turn)

/-- Embedding of `SkillDialog.end_dialog`: on cancellation or replacement
an end-of-conversation activity carrying the triggering activity's
channel data and additional properties is sent to the skill before the
base teardown; on any other reason only the base teardown runs.  The
activity built by the cancellation branch is extracted here. -/
def end_of_conversation_activity (context_activity : Activity) : Activity :=
  { apply_conversation_reference context_activity { type := end_of_conversation } with
      channel_data := context_activity.channel_data
      additional_properties := context_activity.additional_properties }

/-- Embedding of `SkillDialog.end_dialog` proper. -/
def end_dialog (env : Env) (context_activity : Activity) (reason : DialogReason) :
    List Event × Except PyError Unit :=
  if reason == DialogReason.cancel_called || reason == DialogReason.replace_called then
    let sr := send_to_skill env none (end_of_conversation_activity context_activity)
    match sr.2 with
    | Except.error e => (Event.trace_activity end_trace_label :: sr.1, Except.error e)
    | Except.ok _ =>
        (Event.trace_activity end_trace_label :: sr.1 ++ [Event.base_teardown],
          Except.ok ())
  else
    ([Event.base_teardown], Except.ok ())

/-- Helper: finding a key in an association list whose members all miss
the key reaches the appended binding. -/
theorem find?_append_key (l : List (String × Option String)) (k : String)
    (v : Option String) (h : ∀ kv ∈ l, (kv.1 == k) = false) :
    List.find? (fun kv => kv.1 == k) (l ++ [(k, v)]) = some (k, v) := by
  induction l with
  | nil => simp [List.find?]
  | cons kv rest ih =>
      have hkv : (kv.1 == k) = false := h kv (List.mem_cons_self _ _)
      rw [List.cons_append, List.find?_cons_of_neg _ (by simp [hkv])]
      exact ih fun x hx => h x (List.mem_cons_of_mem _ hx)

/-- Dictionary lemma: reading a key just written yields the value. -/
theorem state_get_set_same (s : FrameState) (k : String) (v : Option String) :
    state_get (state_set s k v) k = some v := by
  unfold state_get state_set
  rw [find?_append_key]
  · rfl
  · intro kv hkv
    have := List.of_mem_filter hkv
    simpa [bne] using this

/-- Dictionary lemma: writing one key leaves reads of another key
unchanged. -/
theorem state_get_set_other (s : FrameState) (k k2 : String) (v : Option String)
    (h : k ≠ k2) :
    state_get (state_set s k2 v) k = state_get s k := by
  unfold state_get state_set
  induction s with
  | nil =>
      have : ((k2, v).1 == k) = false := by
        simp [beq_eq_false_iff_ne, Ne.symm h]
      simp [List.find?, this]
  | cons kv rest ih =>
      by_cases hq : (kv.1 != k2) = true
      · rw [List.filter_cons_of_pos (by simpa using hq), List.cons_append]
        by_cases hp : (kv.1 == k) = true
        · simp only [List.find?, hp]
        · have hp' : (kv.1 == k) = false := by simpa using hp
          simp only [List.find?, hp']
          exact ih
      · have hbeq2 : (kv.1 == k2) = true := by
          have hq' : (kv.1 != k2) = false := by simpa using hq
          simpa [bne] using hq'
        have hkv : kv.1 = k2 := eq_of_beq hbeq2
        have hp : (kv.1 == k) = false := by
          rw [hkv]
          simp [beq_eq_false_iff_ne, Ne.symm h]
        rw [List.filter_cons_of_neg (by simpa using hq)]
        simp only [List.find?, hp]
        exact ih

/-- Trace shape of `send_to_skill`: the factory call, the state save and
the single dispatch of the forwarded activity always head the trace. -/
theorem send_to_skill_events_shape (env : Env) (cn : Option String)
    (activity : Activity) :
    ∃ rest, (send_to_skill env cn activity).1 =
      Event.create_conversation_id env.skill_conversation_id ::
      Event.save_changes ::
      Event.post_activity env.skill_conversation_id activity :: rest := by
  exact ⟨_, rfl⟩

/-- The frame state is returned unchanged by every continue turn: the
source only reads the two session keys there. -/
theorem continue_dialog_frame (env : Env) (ca : Activity) (f : FrameState) :
    (continue_dialog env ca f).2.1 = f := by
  unfold continue_dialog
  repeat' split
  all_goals rfl

/-- C4: after a valid begin, the frame-local session state holds exactly
the supplied activity's delivery mode and the supplied connection name;
every continue turn returns the frame state unchanged (so any number of
continue turns preserves the two stored values), and every forwarding
continue turn stamps the stored delivery mode onto the forwarded
activity. -/
theorem c4_session_values (env : Env) (ca : Activity) (frame : FrameState)
    (options : Option OptionsObj) (args : BeginSkillDialogOptions)
    (hv : validate_begin_dialog_args options = Except.ok args) :
    state_get (begin_dialog env ca frame options).2.1 deliver_mode_state_key =
      some args.activity.delivery_mode ∧
    state_get (begin_dialog env ca frame options).2.1 sso_connection_name_key =
      some args.connection_name ∧
    (∀ (n : Nat) (env2 : Env) (ca2 : Activity),
      (fun f => (continue_dialog env2 ca2 f).2.1)^[n]
          (begin_dialog env ca frame options).2.1 =
        (begin_dialog env ca frame options).2.1) ∧
    (∀ (env2 : Env) (ca2 : Activity) (f : FrameState) (dm cn : Option String),
      (ca2.type == end_of_conversation) = false →
      state_get f deliver_mode_state_key = some dm →
      state_get f sso_connection_name_key = some cn →
      ∃ rest, (continue_dialog env2 ca2 f).1 =
        Event.trace_activity continue_trace_label ::
        Event.create_conversation_id env2.skill_conversation_id ::
        Event.save_changes ::
        Event.post_activity env2.skill_conversation_id
          { ca2 with delivery_mode := dm } :: rest) := by
  have hkeys : deliver_mode_state_key ≠ sso_connection_name_key := by decide
  have hframe : (begin_dialog env ca frame options).2.1 =
      state_set (state_set frame deliver_mode_state_key args.activity.delivery_mode)
        sso_connection_name_key args.connection_name := by
    unfold begin_dialog
    rw [hv]
  refine ⟨?_, ?_, ?_, ?_⟩
  · rw [hframe, state_get_set_other _ _ _ _ hkeys, state_get_set_same]
  · rw [hframe, state_get_set_same]
  · intro n env2 ca2
    exact Function.iterate_fixed (continue_dialog_frame env2 ca2 _) n
  · intro env2 ca2 f dm cn hne hdm hcn
    unfold continue_dialog
    rw [if_neg (by simp [hne]), hdm, hcn]
    obtain ⟨rest, hrest⟩ := send_to_skill_events_shape env2 cn
      { ca2 with delivery_mode := dm }
    refine ⟨rest, ?_⟩
    dsimp only
    rw [hrest]

/-- Options object used in the concrete begin evaluation. -/
def c4_options : OptionsObj :=
  OptionsObj.begin_options (some c3_out) (some "ssoConn")

/-- Witness for C4 at a concrete begin: both session keys hold the
supplied values. -/
theorem c4_witness :
    state_get (begin_dialog base_env c7_activity [] (some c4_options)).2.1
        deliver_mode_state_key = some (some expect_replies) ∧
    state_get (begin_dialog base_env c7_activity [] (some c4_options)).2.1
        sso_connection_name_key = some (some "ssoConn") := by
  have h := c4_session_values base_env c7_activity [] (some c4_options)
    { activity := c3_out, connection_name := some "ssoConn" } rfl
  exact ⟨h.1, h.2.1⟩

/-- C8: begin with falsy options, an unconvertible object, or an options
object carrying no activity fails at once with a TypeError, emits no
event (so nothing is sent to the skill) and returns the frame state
untouched (no session key is written). -/
theorem c8_invalid_begin (env : Env) (ca : Activity) (frame : FrameState)
    (options : Option OptionsObj)
    (h : options = none ∨ options = some OptionsObj.not_begin_options ∨
      ∃ cn, options = some (OptionsObj.begin_options none cn)) :
    (begin_dialog env ca frame options).1 = [] ∧
    (begin_dialog env ca frame options).2.1 = frame ∧
    ∃ msg, (begin_dialog env ca frame options).2.2 =
      Except.error (PyError.type_error msg) := by
  rcases h with h | h | ⟨cn, h⟩ <;> subst h
  · exact ⟨rfl, rfl, _, rfl⟩
  · exact ⟨rfl, rfl, _, rfl⟩
  · exact ⟨rfl, rfl, _, rfl⟩

/-- Witness for C8 at `options = none` over a nonempty frame. -/
theorem c8_witness :
    (begin_dialog base_env c7_activity [("k", some "v")] none).1 = [] ∧
    (begin_dialog base_env c7_activity [("k", some "v")] none).2.1 =
      [("k", some "v")] := by
  have h := c8_invalid_begin base_env c7_activity [("k", some "v")] none (Or.inl rfl)
  exact ⟨h.1, h.2.1⟩

/-- C10: a continue turn whose inbound activity is an end-of-conversation
activity ends the dialog returning that activity's value, leaves the
frame state untouched, posts nothing to the skill transport client,
performs no state save and creates no skill conversation id. -/
theorem c10_eoc_inbound (env : Env) (ca : Activity) (frame : FrameState)
    (h : ca.type = end_of_conversation) :
    (continue_dialog env ca frame).2.1 = frame ∧
    (continue_dialog env ca frame).2.2 =
      Except.ok (DialogTurnResult.ended ca.value) ∧
    posts (continue_dialog env ca frame).1 = [] ∧
    Event.save_changes ∉ (continue_dialog env ca frame).1 ∧
    ∀ cid, Event.create_conversation_id cid ∉ (continue_dialog env ca frame).1 := by
  have hb : (ca.type == end_of_conversation) = true := by simp [h]
  unfold continue_dialog
  rw [if_pos hb]
  refine ⟨rfl, rfl, rfl, ?_, ?_⟩
  · simp
  · intro cid
    simp

/-- Witness for C10 at a concrete inbound end-of-conversation activity. -/
theorem c10_witness :
    (continue_dialog base_env c3_eoc_act [("k", some "v")]).2.1 = [("k", some "v")] ∧
    (continue_dialog base_env c3_eoc_act [("k", some "v")]).2.2 =
      Except.ok (DialogTurnResult.ended (ActivityValue.payload "done")) ∧
    posts (continue_dialog base_env c3_eoc_act [("k", some "v")]).1 = [] := by
  have h := c10_eoc_inbound base_env c3_eoc_act [("k", some "v")] rfl
  exact ⟨h.1, h.2.1, h.2.2.1⟩

/-- Sending a non-expectReplies activity produces exactly the factory,
save and single-dispatch events, with no reply processing. -/
theorem send_to_skill_no_replies (env : Env) (cn : Option String)
    (activity : Activity)
    (hmode : (activity.delivery_mode == some expect_replies) = false) :
    (send_to_skill env cn activity).1 =
      [Event.create_conversation_id env.skill_conversation_id,
       Event.save_changes,
       Event.post_activity env.skill_conversation_id activity] := by
  unfold send_to_skill send_to_skill_core
  dsimp only
  cases hp : env.post env.skill_conversation_id activity with
  | throws => rfl
  | response st body =>
      dsimp only
      by_cases hst : 200 ≤ st ∧ st ≤ 299
      · rw [if_pos hst]
        cases body with
        | none => rfl
        | some acts =>
            dsimp only
            rw [if_neg (by simp [hmode])]
      · rw [if_neg hst]

/-- Teardown signal for the torn-down reasons: exactly one
end-of-conversation activity, carrying the triggering activity's channel
data and additional properties, is dispatched, and it is dispatched
before any base-teardown event. -/
theorem end_dialog_teardown_signal (env : Env) (ca : Activity) (reason : DialogReason)
    (hcond : (reason == DialogReason.cancel_called ||
      reason == DialogReason.replace_called) = true) :
    ∃ act, act.type = end_of_conversation ∧
      act.channel_data = ca.channel_data ∧
      act.additional_properties = ca.additional_properties ∧
      posts (end_dialog env ca reason).1 = [act] ∧
      posts ((end_dialog env ca reason).1.takeWhile
        fun e => e != Event.base_teardown) = [act] := by
  unfold end_dialog
  rw [if_pos hcond]
  dsimp only
  refine ⟨end_of_conversation_activity ca, rfl, rfl, rfl, ?_⟩
  have hsr := send_to_skill_no_replies env none (end_of_conversation_activity ca) rfl
  cases hres : (send_to_skill env none (end_of_conversation_activity ca)).2 with
  | error e =>
      dsimp only
      rw [hsr]
      exact ⟨rfl, rfl⟩
  | ok v =>
      dsimp only
      rw [hsr]
      exact ⟨rfl, rfl⟩

/-- C9: an end call with the cancellation or the replacement reason sends
exactly one end-of-conversation activity (carrying the triggering
activity's channel data and additional properties) to the skill, strictly
before the base teardown; an end call with the natural completion reason
sends nothing and only performs the base teardown. -/
theorem c9_end_reason_signal (env : Env) (ca : Activity) :
    (∃ act, act.type = end_of_conversation ∧
      act.channel_data = ca.channel_data ∧
      act.additional_properties = ca.additional_properties ∧
      posts (end_dialog env ca DialogReason.cancel_called).1 = [act] ∧
      posts ((end_dialog env ca DialogReason.cancel_called).1.takeWhile
        fun e => e != Event.base_teardown) = [act]) ∧
    (∃ act, act.type = end_of_conversation ∧
      act.channel_data = ca.channel_data ∧
      act.additional_properties = ca.additional_properties ∧
      posts (end_dialog env ca DialogReason.replace_called).1 = [act] ∧
      posts ((end_dialog env ca DialogReason.replace_called).1.takeWhile
        fun e => e != Event.base_teardown) = [act]) ∧
    posts (end_dialog env ca DialogReason.end_called).1 = [] ∧
    (end_dialog env ca DialogReason.end_called).1 = [Event.base_teardown] :=
  ⟨end_dialog_teardown_signal env ca DialogReason.cancel_called rfl,
   end_dialog_teardown_signal env ca DialogReason.replace_called rfl,
   rfl, rfl⟩

/-- C6: when the interception reaches a successful exchange, the follow-up
activity it dispatches is built with type invoke, the fixed token-exchange
operation name, and a value holding the card's resource id, the exchanged
token and the card's own declared connection name; and it is posted with
the incoming activity's existing conversation identifier. -/
theorem c6_token_exchange_invoke_shape (env : Env) (activity : Activity)
    (cn : Option String) (atts : List Attachment) (att : Attachment)
    (card : OAuthCard) (res : TokenExchangeResource) (uri : String)
    (token : String) (cid : String)
    (hcn : py_truthy_str cn = true)
    (hcap : env.is_extended_user_token_provider = true)
    (hatts : activity.attachments = some atts)
    (hfind : atts.find? (fun a => a.content_type == oauth_card_content_type) = some att)
    (hcontent : att.content = some card)
    (hres : card.token_exchange_resource = some res)
    (huri : res.uri = some uri)
    (huri2 : (uri == "") = false)
    (hex : env.exchange (cn.getD "") uri =
      ExchangeOutcome.result (some { token := some token }))
    (htok2 : (token == "") = false)
    (hcid : activity.conversation_id = some cid) :
    (intercept_oauth_cards env activity cn).1 =
      [Event.exchange_token (cn.getD "") uri,
       Event.post_activity cid
         { create_reply activity with
             type := invoke_type
             name := some token_exchange_operation_name
             value := ActivityValue.token_exchange_invoke_request res.id token
               card.connection_name }] := by
  unfold intercept_oauth_cards
  rw [if_neg (by simp [hcn, hcap]), hatts]
  dsimp only
  rw [hfind]
  dsimp only
  rw [hcontent]
  dsimp only
  rw [hres]
  dsimp only
  rw [huri]
  dsimp only
  rw [if_neg (by simp [huri2]), hex]
  dsimp only
  have hne : token ≠ "" := by simpa using htok2
  rw [if_neg (by simp [py_truthy_str]; exact hne)]
  unfold send_token_exchange_invoke_to_skill
  dsimp only
  rw [hcid]
  dsimp only
  repeat' split
  all_goals rfl

/-- Witness for C6: the concrete successful exchange of the C1 environment
dispatches the synthesized invoke activity on the incoming conversation. -/
theorem c6_witness :
    (intercept_oauth_cards c1_env c1_activity (some "conn")).1 =
      [Event.exchange_token "conn" "u1",
       Event.post_activity "conv1"
         { create_reply c1_activity with
             type := invoke_type
             name := some token_exchange_operation_name
             value := ActivityValue.token_exchange_invoke_request (some "rid") "tok"
               (some "cardConn") }] := by
  exact c6_token_exchange_invoke_shape c1_env c1_activity (some "conn")
    [{ content_type := oauth_card_content_type
       content := some
         { connection_name := some "cardConn"
           token_exchange_resource := some { id := some "rid", uri := some "u1" } } }]
    { content_type := oauth_card_content_type
      content := some
        { connection_name := some "cardConn"
          token_exchange_resource := some { id := some "rid", uri := some "u1" } } }
    { connection_name := some "cardConn"
      token_exchange_resource := some { id := some "rid", uri := some "u1" } }
    { id := some "rid", uri := some "u1" }
    "u1" "tok" "conv1" rfl rfl rfl rfl rfl rfl rfl rfl rfl rfl rfl

end SkillDialog
